import Mathlib

/-!
Verification of the credential and password-reset lifecycle of the
`express-app` repository (backend data-access layer `src/server/db.js`
and the Express route handlers that call it).

The JavaScript functions are shallowly embedded as pure Lean functions
over an explicit database state (the `users` table as a list of rows)
and an explicit session value.  Each `pool.execute` SQL statement is
modelled by a corresponding pure transformation of the row list, in the
exact order the source performs them; the number of executed storage
statements is threaded through where a claim is about storage access.
Randomness (bcrypt salts, `crypto.randomBytes`) is modelled by explicit
entropy parameters, and the clock (`NOW()`, `new Date()`) by an explicit
`now : Int` (epoch seconds).
-/

namespace ExpressApp

/-- Modelled from the spec: the Password Hasher (the npm `bcrypt`
dependency, external to the repository).  Per spec section 4.2, `hash`
embeds a randomized salt and cost factor in its output and `verify`
recomputes and compares, returning `true` exactly on a matching
plaintext.  The hash output is treated as an opaque value that the
repository code never inspects except through `bcrypt.compare`. -/
structure BcryptHash where
  cost : Nat
  salt : Nat
  pw : String
deriving Repr, DecidableEq

namespace bcrypt

/-- Modelled from the spec: `bcrypt.hash(plaintext, rounds)` with the
randomized salt made an explicit parameter. -/
def hash (plaintext : String) (rounds : Nat) (salt : Nat) : BcryptHash :=
  ⟨rounds, salt, plaintext⟩

/-- Modelled from the spec: `bcrypt.compare(plaintext, hash)` returns
whether the plaintext matches the one the hash was produced from. -/
def compare (plaintext : String) (h : BcryptHash) : Bool :=
  h.pw == plaintext

end bcrypt

/-- One row of the `users` table
(`users(id, email, password_hash, reset_token NULLABLE, reset_expires NULLABLE)`).
`password_hash` is an `Option` because `LoginUser` explicitly guards
against a missing/falsy stored hash. -/
structure UserRow where
  id : Nat
  email : String
  password_hash : Option BcryptHash
  reset_token : Option String
  reset_expires : Option Int
deriving Repr, DecidableEq

/-- The database state: the `users` table plus the auto-increment
counter that assigns `insertId` on INSERT. -/
structure Database where
  rows : List UserRow
  nextId : Nat
deriving Repr, DecidableEq

/-- The per-client session object (`req.session`); holds at most a
`userId`, as written by `LoginUser`. -/
structure SessionObj where
  userId : Option Nat
deriving Repr, DecidableEq

/-- SELECT * FROM users WHERE email = ? ; the code then uses
`existingUsers[0]`, i.e. the first matching row. -/
def findByEmail (rows : List UserRow) (email : String) : Option UserRow :=
  rows.find? (fun u => u.email == email)

/-- SELECT id, reset_expires FROM users WHERE reset_token = ? ; the code
then uses `users[0]`, i.e. the first matching row. -/
def findByResetToken (rows : List UserRow) (token : String) : Option UserRow :=
  rows.find? (fun u => u.reset_token == some token)

/-- doesAccountExist(email) from `src/server/db.js`: SELECT by email and
report whether any row matched. -/
def doesAccountExist (db : Database) (email : String) : Bool :=
  db.rows.any (fun u => u.email == email)

/-- The four exits of LoginUser, in source order:
400 "Email does not exist.", 500 "Password error.",
401 "Incorrect password.", 200 "Login successful.". -/
inductive LoginResult where
  | emailNotExist
  | passwordError
  | incorrectPassword
  | loginOk
deriving Repr, DecidableEq

/-- HTTP status attached to each LoginUser exit. -/
def loginStatus : LoginResult → Nat
  | .emailNotExist => 400
  | .passwordError => 500
  | .incorrectPassword => 401
  | .loginOk => 200

/-- LoginUser(email, password, res, req) from `src/server/db.js`:
look up by email; missing row is a 400, missing stored hash a 500,
failed bcrypt.compare a 401; on success `req.session.userId` is bound
to the row's id and a 200 is sent.  The session is returned unchanged
on every non-success exit (the source `return`s before touching it). -/
def LoginUser (db : Database) (email password : String) (session : SessionObj) :
    LoginResult × SessionObj :=
  match findByEmail db.rows email with
  | none => (.emailNotExist, session)
  | some u =>
    match u.password_hash with
    | none => (.passwordError, session)
    | some h =>
      if bcrypt.compare password h then
        (.loginOk, { userId := some u.id })
      else
        (.incorrectPassword, session)

/-- Response body and status of the POST /api/logout handler.
The 500 branch sends only a message, so `success` is an `Option`. -/
structure LogoutResponse where
  status : Nat
  success : Option Bool
  message : String
deriving Repr, DecidableEq

/-- POST /api/logout handler (server index, step guide lines 3627-3647):
if `req.session` is truthy, destroy it (a store error yields 500,
otherwise 200 with success:true); if `req.session` is falsy, respond
200 with success:false and "No active session found". -/
def logoutHandler (session : Option SessionObj) (destroyErr : Bool) :
    LogoutResponse × Option SessionObj :=
  match session with
  | some s =>
    if destroyErr then
      ({ status := 500, success := none, message := "Internal server error" }, some s)
    else
      ({ status := 200, success := some true, message := "Logged out successfully" }, none)
  | none =>
    ({ status := 200, success := some false, message := "No active session found" }, none)

/-- The express-session middleware (server index, part_006 lines 32-42)
attaches a session object to every incoming request: `req.session` is
the stored session if one exists, else a fresh empty one. -/
def middlewareSession (store : Option SessionObj) : SessionObj :=
  store.getD { userId := none }

/-- A logout request as actually dispatched: the middleware supplies
`req.session`, then the handler runs. -/
def logoutRequest (store : Option SessionObj) (destroyErr : Bool) :
    LogoutResponse × Option SessionObj :=
  logoutHandler (some (middlewareSession store)) destroyErr

/-- The two exits of RegisterUser: the thrown 400
"Email already registered", or the INSERT result (`insertId`). -/
inductive RegisterOutcome where
  | emailAlreadyRegistered
  | registered (insertId : Nat)
deriving Repr, DecidableEq

/-- RegisterUser(email, password) from `src/server/db.js`: existence
check by email, then bcrypt.hash with 10 rounds, then
INSERT INTO users (email, password_hash). -/
def RegisterUser (db : Database) (email password : String) (salt : Nat) :
    RegisterOutcome × Database :=
  if doesAccountExist db email then
    (.emailAlreadyRegistered, db)
  else
    let h := bcrypt.hash password 10 salt
    let newRow : UserRow :=
      { id := db.nextId, email := email, password_hash := some h,
        reset_token := none, reset_expires := none }
    (.registered db.nextId, { rows := db.rows ++ [newRow], nextId := db.nextId + 1 })

/-- Response of the POST /api/register handler. -/
structure RegisterResponse where
  status : Nat
  message : String
  userId : Option Nat
deriving Repr, DecidableEq

/-- POST /api/register handler (step guide lines 3649-3664): await
RegisterUser; on success respond 200 with the new `result.insertId` as
`userId`; a thrown error is mapped to its `statusCode` (400 for the
duplicate-email error) with its message. -/
def registerHandler (db : Database) (email password : String) (salt : Nat) :
    RegisterResponse × Database :=
  match RegisterUser db email password salt with
  | (.emailAlreadyRegistered, db1) =>
    ({ status := 400, message := "Email already registered", userId := none }, db1)
  | (.registered i, db1) =>
    ({ status := 200, message := "User registered successfully", userId := some i }, db1)

/-- Lower-case hex digit for a value below 16, as produced by
Node's Buffer.toString("hex"). -/
def hexDigit (n : Nat) : Char :=
  if n < 10 then Char.ofNat (48 + n) else Char.ofNat (87 + n)

/-- Two hex characters of one byte. -/
def byteToHex (b : Nat) : List Char :=
  [hexDigit (b / 16 % 16), hexDigit (b % 16)]

/-- crypto.randomBytes(n).toString("hex"): each byte becomes two lower
case hex characters.  The random bytes themselves are the explicit
entropy input of the caller. -/
def bytesToHex (bs : List Nat) : String :=
  ⟨(bs.map byteToHex).flatten⟩

/-- Response of createPasswordReset, which sends the HTTP response
itself: 400 "Email is not registered.", or 200 with the body
containing `message` and `resetToken`. -/
structure ForgotResponse where
  status : Nat
  message : String
  resetToken : Option String
deriving Repr, DecidableEq

/-- First UPDATE of createPasswordReset:
UPDATE users SET reset_token = ? WHERE email = ?. -/
def setResetTokenStep (rows : List UserRow) (email token : String) : List UserRow :=
  rows.map (fun u => if u.email == email then { u with reset_token := some token } else u)

/-- Second UPDATE of createPasswordReset:
UPDATE users SET reset_expires = DATE_ADD(NOW(), INTERVAL 1 HOUR)
WHERE email = ?. -/
def setResetExpiresStep (rows : List UserRow) (email : String) (now : Int) : List UserRow :=
  rows.map (fun u => if u.email == email then { u with reset_expires := some (now + 3600) } else u)

/-- createPasswordReset(email, res) from `src/server/db.js`: existence
check (unknown email throws 400 "Email is not registered."), then a
64-hex-character token from crypto.randomBytes(32), then TWO sequential
UPDATE statements — the first writes only reset_token, the second only
reset_expires — then the 200 response carrying the token. -/
def createPasswordReset (db : Database) (email : String) (entropy : List Nat) (now : Int) :
    ForgotResponse × Database :=
  if doesAccountExist db email then
    let token := bytesToHex entropy
    let rows1 := setResetTokenStep db.rows email token
    let rows2 := setResetExpiresStep rows1 email now
    ({ status := 200, message := "Password reset token created.", resetToken := some token },
     { db with rows := rows2 })
  else
    ({ status := 400, message := "Email is not registered.", resetToken := none }, db)

/-- The six exits of completePasswordReset, in source order:
400 "Invalid token format", 400 "Password must be at least 8
characters", 400 "Invalid or expired token", 400 "Token has expired",
500 "Failed to update password", 200 success. -/
inductive ResetOutcome where
  | invalidTokenFormat
  | passwordTooShort
  | invalidOrExpiredToken
  | tokenExpired
  | updateFailed
  | resetOk
deriving Repr, DecidableEq

/-- HTTP status attached to each completePasswordReset exit. -/
def resetStatus : ResetOutcome → Nat
  | .invalidTokenFormat => 400
  | .passwordTooShort => 400
  | .invalidOrExpiredToken => 400
  | .tokenExpired => 400
  | .updateFailed => 500
  | .resetOk => 200

/-- UPDATE users SET reset_token = NULL, reset_expires = NULL
WHERE id = ? (the lazy clearing of a discovered-expired token). -/
def clearResetFieldsById (rows : List UserRow) (uid : Nat) : List UserRow :=
  rows.map (fun u =>
    if u.id == uid then { u with reset_token := none, reset_expires := none } else u)

/-- The row value written by the final UPDATE of completePasswordReset. -/
def finalUpdateRow (u : UserRow) (newHash : BcryptHash) : UserRow :=
  { u with password_hash := some newHash, reset_token := none, reset_expires := none }

/-- UPDATE users SET password_hash = ?, reset_token = NULL,
reset_expires = NULL WHERE id = ? — returns the new table and
`affectedRows`: the number of rows the WHERE clause matched whose
stored value actually changed (MySQL's default affected-rows count). -/
def updatePasswordById (rows : List UserRow) (uid : Nat) (newHash : BcryptHash) :
    List UserRow × Nat :=
  (rows.map (fun u => if u.id == uid then finalUpdateRow u newHash else u),
   (rows.filter (fun u => u.id == uid && finalUpdateRow u newHash != u)).length)

/-- The expiry test of completePasswordReset on the selected snapshot:
`!user.reset_expires || new Date(user.reset_expires) < new Date()` —
a NULL expiry counts as expired, otherwise strictly-before-now does. -/
def tokenRecordExpired (expires : Option Int) (now : Int) : Bool :=
  match expires with
  | none => true
  | some e => decide (e < now)

/-- Result of the first half of completePasswordReset, up to and
including the SELECT: a validation rejection (before any storage
access), no matching row, or the snapshot the code keeps of the matched
row (`user.id` and `user.reset_expires`). -/
inductive ResetSelectResult where
  | rejected (o : ResetOutcome)
  | notFound
  | found (uid : Nat) (expires : Option Int)
deriving Repr, DecidableEq

/-- First half of completePasswordReset: the token-format guard
(`!token || typeof token !== "string" || token.length !== 64` — length
only, no character-set test), the password-length guard, then
SELECT id, reset_expires FROM users WHERE reset_token = ?. -/
def resetSelectPhase (rows : List UserRow) (token newPassword : String) :
    ResetSelectResult :=
  if token.length ≠ 64 then .rejected .invalidTokenFormat
  else if newPassword.length < 8 then .rejected .passwordTooShort
  else
    match findByResetToken rows token with
    | none => .notFound
    | some u => .found u.id u.reset_expires

/-- Second half of completePasswordReset, from the snapshot taken by the
SELECT: the expiry check `!user.reset_expires || new Date(reset_expires)
< new Date()` (a NULL expiry counts as expired) clears both reset fields
by id and throws 400; otherwise bcrypt.hash with 12 rounds, then the
final UPDATE keyed on id alone, failing 500 when affectedRows is 0.
The Nat counts the storage statements this half executes. -/
def resetUpdatePhase (rows : List UserRow) (uid : Nat) (expires : Option Int)
    (newPassword : String) (now : Int) (salt : Nat) :
    ResetOutcome × List UserRow × Nat :=
  if tokenRecordExpired expires now then
    (.tokenExpired, clearResetFieldsById rows uid, 1)
  else
    let newHash := bcrypt.hash newPassword 12 salt
    let (rows2, affected) := updatePasswordById rows uid newHash
    if affected == 0 then (.updateFailed, rows2, 1)
    else (.resetOk, rows2, 1)

/-- completePasswordReset(token, newPassword, res) from
`src/server/db.js`: the two halves composed in sequence, as a single
uninterleaved execution.  The Nat is the total number of storage
statements executed (0 when rejected by validation). -/
def completePasswordReset (db : Database) (token newPassword : String)
    (now : Int) (salt : Nat) : ResetOutcome × Database × Nat :=
  match resetSelectPhase db.rows token newPassword with
  | .rejected o => (o, db, 0)
  | .notFound => (.invalidOrExpiredToken, db, 1)
  | .found uid exp =>
    let (o, rows2, q) := resetUpdatePhase db.rows uid exp newPassword now salt
    (o, { db with rows := rows2 }, 1 + q)

/-- The data-model invariant of spec section 3: reset_token and
reset_expires are both NULL or both set. -/
def resetFieldsCoupled (u : UserRow) : Bool :=
  u.reset_token.isNone == u.reset_expires.isNone

/-! Concrete fixtures used by witnesses and counterexamples. -/

/-- A well-formed 64-character reset token. -/
def tok64 : String := "aaaaaaaaaaaaaaaaaaaaaaaaaaaaaaaaaaaaaaaaaaaaaaaaaaaaaaaaaaaaaaaa"

/-- A 64-character string outside the hex character set. -/
def zzz64 : String := "zzzzzzzzzzzzzzzzzzzzzzzzzzzzzzzzzzzzzzzzzzzzzzzzzzzzzzzzzzzzzzzz"

/-- Stored hash of alice's original password. -/
def hAlice : BcryptHash := bcrypt.hash "Secret123" 10 7

/-- A registered user with no pending reset. -/
def alice : UserRow :=
  { id := 1, email := "alice@example.com", password_hash := some hAlice,
    reset_token := none, reset_expires := none }

/-- Database holding exactly alice. -/
def db0 : Database := { rows := [alice], nextId := 2 }

/-- Empty database. -/
def dbEmpty : Database := { rows := [], nextId := 1 }

/-- Alice with a pending, unexpired (at time 1000) reset token. -/
def aliceP : UserRow := { alice with reset_token := some tok64, reset_expires := some 5000 }

/-- Database holding exactly aliceP. -/
def dbP : Database := { rows := [aliceP], nextId := 2 }

/-- Alice with a pending reset token that expired (at time 1000). -/
def aliceX : UserRow := { alice with reset_token := some tok64, reset_expires := some 100 }

/-- Database holding exactly aliceX. -/
def dbX : Database := { rows := [aliceX], nextId := 2 }

/-- Alice with a reset token but a NULL expiry. -/
def aliceN : UserRow := { alice with reset_token := some tok64, reset_expires := none }

/-- Database holding exactly aliceN. -/
def dbN : Database := { rows := [aliceN], nextId := 2 }

/-- Entropy of 32 zero bytes, standing for one crypto.randomBytes(32)
draw. -/
def entropy0 : List Nat := List.replicate 32 0

/-! Theorems. -/

/-- C1: in LoginUser(email, password, session), the session is mutated
(bound to the matched user's id) if and only if password verification
succeeded: whenever the row found by email stores a hash that verifies
against the supplied password, the result is loginOk with the session
bound to that user's id; a loginOk result can only arise that way; and
every non-loginOk exit (unknown email, missing stored hash, failed
verification) leaves the session exactly as it was. -/
theorem login_mutates_session_iff_verified (db : Database) (e p : String) (s : SessionObj) :
    (∀ u h, findByEmail db.rows e = some u → u.password_hash = some h →
      bcrypt.compare p h = true →
      LoginUser db e p s = (.loginOk, { userId := some u.id })) ∧
    ((LoginUser db e p s).1 = .loginOk →
      ∃ u h, findByEmail db.rows e = some u ∧ u.password_hash = some h ∧
        bcrypt.compare p h = true ∧ (LoginUser db e p s).2 = { userId := some u.id }) ∧
    ((LoginUser db e p s).1 ≠ .loginOk → (LoginUser db e p s).2 = s) ∧
    (findByEmail db.rows e = none → LoginUser db e p s = (.emailNotExist, s)) ∧
    (∀ u, findByEmail db.rows e = some u → u.password_hash = none →
      LoginUser db e p s = (.passwordError, s)) ∧
    (∀ u h, findByEmail db.rows e = some u → u.password_hash = some h →
      bcrypt.compare p h = false → LoginUser db e p s = (.incorrectPassword, s)) := by
  have main : ∀ r : LoginResult × SessionObj, LoginUser db e p s = r →
      (r.1 = .loginOk →
        ∃ u h, findByEmail db.rows e = some u ∧ u.password_hash = some h ∧
          bcrypt.compare p h = true ∧ r.2 = { userId := some u.id }) ∧
      (r.1 ≠ .loginOk → r.2 = s) := by
    intro r hr
    cases hfind : findByEmail db.rows e with
    | none => simp [LoginUser, hfind] at hr; subst hr; simp
    | some u =>
      cases hh : u.password_hash with
      | none => simp [LoginUser, hfind, hh] at hr; subst hr; simp
      | some h =>
        cases hc : bcrypt.compare p h with
        | false => simp [LoginUser, hfind, hh, hc] at hr; subst hr; simp
        | true =>
          simp [LoginUser, hfind, hh, hc] at hr; subst hr
          refine ⟨fun _ => ⟨u, h, rfl, hh, hc, rfl⟩, fun hne => absurd rfl hne⟩
  refine ⟨?_, (main _ rfl).1, (main _ rfl).2, ?_, ?_, ?_⟩
  · intro u h hfind hh hc
    simp [LoginUser, hfind, hh, hc]
  · intro hfind
    simp [LoginUser, hfind]
  · intro u hfind hh
    simp [LoginUser, hfind, hh]
  · intro u h hfind hh hc
    simp [LoginUser, hfind, hh, hc]

/-- C1 witness: on a database holding alice with the stored hash of
"Secret123", login with the right password binds the session to her id. -/
theorem login_mutates_session_iff_verified_witness :
    LoginUser db0 "alice@example.com" "Secret123" { userId := none } =
      (.loginOk, { userId := some 1 }) :=
  (login_mutates_session_iff_verified db0 "alice@example.com" "Secret123"
    { userId := none }).1 alice hAlice rfl rfl rfl

/-- C8 counterexample: when no session exists, the POST /api/logout
handler responds 200 but with success:false and "No active session
found" — it does not report success, contrary to the claim. -/
theorem logout_no_session_reports_failure :
    logoutHandler none false =
      ({ status := 200, success := some false, message := "No active session found" },
       none) := rfl

/-- C8 amended: as dispatched through the express-session middleware
(which attaches a session object to every request), logout is
idempotent and error-free: two consecutive logout requests each respond
200 with success:true; but when the handler sees no session at all it
responds 200 with success:false and "No active session found" (an
error-free response that nonetheless does not report success). -/
theorem logout_idempotent_and_no_session_behavior :
    (∀ store : Option SessionObj,
      (logoutRequest store false).1 =
        { status := 200, success := some true, message := "Logged out successfully" } ∧
      (logoutRequest (logoutRequest store false).2 false).1 =
        { status := 200, success := some true, message := "Logged out successfully" }) ∧
    (logoutHandler none false).1 =
      { status := 200, success := some false, message := "No active session found" } :=
  ⟨fun _ => ⟨rfl, rfl⟩, rfl⟩

/-- C5: for an email with no existing row, the register handler
succeeds, appending exactly one new row and answering 200 with the new
insertId as userId; a second registration of the same email answers 400
"Email already registered" and leaves the table untouched. -/
theorem register_unique_email (db : Database) (e p p2 : String) (s1 s2 : Nat)
    (hfree : doesAccountExist db e = false) :
    registerHandler db e p s1 =
      ({ status := 200, message := "User registered successfully", userId := some db.nextId },
       { rows := db.rows ++
           [{ id := db.nextId, email := e, password_hash := some (bcrypt.hash p 10 s1),
              reset_token := none, reset_expires := none }],
         nextId := db.nextId + 1 }) ∧
    registerHandler (registerHandler db e p s1).2 e p2 s2 =
      ({ status := 400, message := "Email already registered", userId := none },
       (registerHandler db e p s1).2) := by
  have h1 : registerHandler db e p s1 =
      ({ status := 200, message := "User registered successfully", userId := some db.nextId },
       { rows := db.rows ++
           [{ id := db.nextId, email := e, password_hash := some (bcrypt.hash p 10 s1),
              reset_token := none, reset_expires := none }],
         nextId := db.nextId + 1 }) := by
    simp [registerHandler, RegisterUser, hfree]
  have h2 : doesAccountExist
      { rows := db.rows ++
          [{ id := db.nextId, email := e, password_hash := some (bcrypt.hash p 10 s1),
             reset_token := none, reset_expires := none }],
        nextId := db.nextId + 1 } e = true := by
    simp [doesAccountExist]
  refine ⟨h1, ?_⟩
  rw [h1]
  simp [registerHandler, RegisterUser, h2]

/-- C5 witness: on a database holding only alice, registering
bob@example.com succeeds with userId 2, and registering it again fails
with 400 "Email already registered" and no new row. -/
theorem register_unique_email_witness :
    registerHandler (registerHandler db0 "bob@example.com" "Password1" 3).2
        "bob@example.com" "Password2" 4 =
      ({ status := 400, message := "Email already registered", userId := none },
       (registerHandler db0 "bob@example.com" "Password1" 3).2) :=
  (register_unique_email db0 "bob@example.com" "Password1" "Password2" 3 4 rfl).2

/-- C7 counterexample: a 64-character input entirely outside the hex
character set passes the token-format guard (which checks only type and
length) and reaches the storage lookup — the execution issues 1 storage
query, contradicting the claim that every input whose shape (length and
character set) does not match a real token is rejected without querying
storage. -/
theorem resetPassword_charset_not_validated :
    completePasswordReset db0 zzz64 "whatever123" 0 0 =
      (.invalidOrExpiredToken, db0, 1) := rfl

/-- C7 amended: completePasswordReset validates only the token's type
and length (exactly 64 characters) before any storage access: every
input of a different length — such as "not-a-real-token" — fails with
the 400 "Invalid token format" error, with zero storage queries and the
database untouched.  The character set is not checked. -/
theorem resetPassword_length_check_before_lookup (db : Database)
    (token newPassword : String) (now : Int) (salt : Nat)
    (hlen : token.length ≠ 64) :
    completePasswordReset db token newPassword now salt =
      (.invalidTokenFormat, db, 0) ∧
    resetStatus .invalidTokenFormat = 400 := by
  constructor
  · simp [completePasswordReset, resetSelectPhase, hlen]
  · rfl

/-- C7 amended witness: "not-a-real-token" has length 16, so it is
rejected with 400 "Invalid token format", zero queries, database
untouched. -/
theorem resetPassword_length_check_before_lookup_witness :
    completePasswordReset db0 "not-a-real-token" "whatever123" 0 0 =
      (.invalidTokenFormat, db0, 0) :=
  (resetPassword_length_check_before_lookup db0 "not-a-real-token" "whatever123" 0 0
    (by decide)).1

/-- Clearing the reset fields by id leaves every stored password hash
unchanged. -/
theorem clearResetFieldsById_hash (rows : List UserRow) (uid : Nat) :
    (clearResetFieldsById rows uid).map (fun v => v.password_hash) =
      rows.map (fun v => v.password_hash) := by
  induction rows with
  | nil => rfl
  | cons v t ih =>
    have hstep : clearResetFieldsById (v :: t) uid =
        (if (v.id == uid) then { v with reset_token := none, reset_expires := none }
         else v) :: clearResetFieldsById t uid := rfl
    rw [hstep, List.map_cons, List.map_cons, ih]
    congr 1
    by_cases h : (v.id == uid) <;> simp [h]

/-- Every row the clearing UPDATE matches has both reset fields NULL
afterwards. -/
theorem clearResetFieldsById_clears (rows : List UserRow) (uid : Nat) :
    ∀ v ∈ clearResetFieldsById rows uid, v.id = uid →
      v.reset_token = none ∧ v.reset_expires = none := by
  intro v hv hid
  simp only [clearResetFieldsById, List.mem_map] at hv
  obtain ⟨w, hw, rfl⟩ := hv
  by_cases h : (w.id == uid)
  · simp [h]
  · simp only [h, if_neg, Bool.false_eq_true, ite_false] at hid ⊢
    exact absurd (by simpa using hid) (by simpa using h)

/-- Rows output by the clearing UPDATE satisfy the coupling invariant
when the input rows did. -/
theorem coupled_clear (rows : List UserRow) (uid : Nat)
    (hdb : ∀ u ∈ rows, resetFieldsCoupled u = true) :
    ∀ u ∈ clearResetFieldsById rows uid, resetFieldsCoupled u = true := by
  intro u hu
  simp only [clearResetFieldsById, List.mem_map] at hu
  obtain ⟨v, hv, rfl⟩ := hu
  by_cases h : (v.id == uid)
  · simp [h, resetFieldsCoupled]
  · simp only [h, Bool.false_eq_true, ite_false]
    exact hdb v hv

/-- Rows output by the final password-and-clear UPDATE satisfy the
coupling invariant when the input rows did. -/
theorem coupled_update (rows : List UserRow) (uid : Nat) (newHash : BcryptHash)
    (hdb : ∀ u ∈ rows, resetFieldsCoupled u = true) :
    ∀ u ∈ (updatePasswordById rows uid newHash).1, resetFieldsCoupled u = true := by
  intro u hu
  simp only [updatePasswordById, List.mem_map] at hu
  obtain ⟨v, hv, rfl⟩ := hu
  by_cases h : (v.id == uid)
  · simp [h, finalUpdateRow, resetFieldsCoupled]
  · simp only [h, Bool.false_eq_true, ite_false]
    exact hdb v hv

/-- Rows output by the two sequential UPDATEs of token issuance satisfy
the coupling invariant when the input rows did (the matched rows end
with both fields set, the others are untouched). -/
theorem coupled_after_issuance (rows : List UserRow) (e tok : String) (now : Int)
    (hdb : ∀ u ∈ rows, resetFieldsCoupled u = true) :
    ∀ u ∈ setResetExpiresStep (setResetTokenStep rows e tok) e now,
      resetFieldsCoupled u = true := by
  intro u hu
  simp only [setResetExpiresStep, setResetTokenStep, List.map_map, List.mem_map,
    Function.comp] at hu
  obtain ⟨v, hv, rfl⟩ := hu
  by_cases hve : (v.email == e)
  · simp [hve, resetFieldsCoupled]
  · simp only [hve, Bool.false_eq_true, ite_false]
    exact hdb v hv

/-- The table produced by the second half of completePasswordReset:
the expired branch clears the matched row's reset fields, every other
branch applies the final UPDATE (the rows do not depend on whether
affectedRows was zero). -/
theorem resetUpdatePhase_rows (rows : List UserRow) (uid : Nat) (exp : Option Int)
    (np : String) (now : Int) (salt : Nat) :
    (resetUpdatePhase rows uid exp np now salt).2.1 =
      if tokenRecordExpired exp now then clearResetFieldsById rows uid
      else (updatePasswordById rows uid (bcrypt.hash np 12 salt)).1 := by
  unfold resetUpdatePhase
  by_cases h : tokenRecordExpired exp now
  · simp only [h, ite_true]
  · simp only [h, Bool.false_eq_true, ite_false, updatePasswordById]
    split <;> rfl

/-- C2: evaluation of the code at the racing interleaving.  On a
database holding alice with pending unexpired token tok64: (a) a
sequential second resetPassword with the consumed token fails with
"Invalid or expired token" (single-use holds sequentially); but (b)
when two resetPassword calls race — both executing the SELECT before
either UPDATE — the loser's final UPDATE, whose WHERE clause is keyed
on id alone and does not test reset_token, still matches the row
(affectedRows 1) and the loser finishes resetOk, silently overwriting
the winner's password instead of failing with the 500 "Failed to update
password" guard. -/
theorem reset_token_race_loser_succeeds :
    (completePasswordReset dbP tok64 "newpassword1" 1000 11).1 = .resetOk ∧
    (completePasswordReset (completePasswordReset dbP tok64 "newpassword1" 1000 11).2.1
        tok64 "newpassword2" 1000 12).1 = .invalidOrExpiredToken ∧
    resetSelectPhase dbP.rows tok64 "newpassword1" = .found 1 (some 5000) ∧
    resetSelectPhase dbP.rows tok64 "newpassword2" = .found 1 (some 5000) ∧
    (resetUpdatePhase dbP.rows 1 (some 5000) "newpassword1" 1000 11).1 = .resetOk ∧
    (resetUpdatePhase (resetUpdatePhase dbP.rows 1 (some 5000) "newpassword1" 1000 11).2.1
        1 (some 5000) "newpassword2" 1000 12).1 = .resetOk ∧
    (resetUpdatePhase (resetUpdatePhase dbP.rows 1 (some 5000) "newpassword1" 1000 11).2.1
        1 (some 5000) "newpassword2" 1000 12).1 ≠ .updateFailed := by
  refine ⟨rfl, rfl, rfl, rfl, rfl, rfl, ?_⟩
  decide

/-- C3 counterexample: forgot-password issuance factually passes
through the table produced by its first UPDATE alone, and on a database
holding alice (no pending reset) that intermediate table violates the
both-null-or-both-set invariant: the token is set while the expiry is
still NULL. -/
theorem createPasswordReset_intermediate_uncoupled :
    (createPasswordReset db0 "alice@example.com" entropy0 0).2.rows =
      setResetExpiresStep
        (setResetTokenStep db0.rows "alice@example.com" (bytesToHex entropy0))
        "alice@example.com" 0 ∧
    (setResetTokenStep db0.rows "alice@example.com" (bytesToHex entropy0)).all
      resetFieldsCoupled = false := ⟨rfl, rfl⟩

/-- C3 amended: the both-null-or-both-set coupling of reset_token and
reset_expires is preserved by every completed in-scope operation
(register, forgot-password issuance, reset completion; login and
logout do not touch the table), but forgot-password issuance is two
sequential UPDATE statements and its intermediate state — after the
first UPDATE, before the second — has the token set without the new
expiry (NULL on first issuance). -/
theorem reset_fields_coupled_preserved (db : Database)
    (hdb : ∀ u ∈ db.rows, resetFieldsCoupled u = true) :
    (∀ e p salt, ∀ u ∈ (RegisterUser db e p salt).2.rows, resetFieldsCoupled u = true) ∧
    (∀ e entropy now, ∀ u ∈ (createPasswordReset db e entropy now).2.rows,
      resetFieldsCoupled u = true) ∧
    (∀ tok np now salt, ∀ u ∈ (completePasswordReset db tok np now salt).2.1.rows,
      resetFieldsCoupled u = true) := by
  refine ⟨?_, ?_, ?_⟩
  · intro e p salt u hu
    by_cases hex : doesAccountExist db e
    · simp only [RegisterUser, hex, ite_true] at hu
      exact hdb u hu
    · simp only [RegisterUser, hex, Bool.false_eq_true, ite_false, List.mem_append,
        List.mem_singleton] at hu
      rcases hu with hu | rfl
      · exact hdb u hu
      · rfl
  · intro e entropy now u hu
    by_cases hex : doesAccountExist db e
    · simp only [createPasswordReset, hex, ite_true] at hu
      exact coupled_after_issuance db.rows e _ now hdb u hu
    · simp only [createPasswordReset, hex, Bool.false_eq_true, ite_false] at hu
      exact hdb u hu
  · intro tok np now salt u hu
    cases hsel : resetSelectPhase db.rows tok np with
    | rejected o =>
      simp only [completePasswordReset, hsel] at hu
      exact hdb u hu
    | notFound =>
      simp only [completePasswordReset, hsel] at hu
      exact hdb u hu
    | found uid exp =>
      rcases hr : resetUpdatePhase db.rows uid exp np now salt with ⟨o, rows2, q⟩
      simp only [completePasswordReset, hsel, hr] at hu
      have hrows : rows2 =
          if tokenRecordExpired exp now then clearResetFieldsById db.rows uid
          else (updatePasswordById db.rows uid (bcrypt.hash np 12 salt)).1 := by
        have h2 := resetUpdatePhase_rows db.rows uid exp np now salt
        rw [hr] at h2
        exact h2
      rw [hrows] at hu
      by_cases hc : tokenRecordExpired exp now = true
      · rw [if_pos hc] at hu
        exact coupled_clear db.rows uid hdb u hu
      · rw [if_neg hc] at hu
        exact coupled_update db.rows uid _ hdb u hu

/-- C3 amended witness: issuing a reset for alice on db0 (whose rows
satisfy the invariant) yields her row with both fields set, which is
coupled. -/
theorem reset_fields_coupled_preserved_witness :
    resetFieldsCoupled
      { alice with reset_token := some (bytesToHex entropy0),
                   reset_expires := some 3600 } = true :=
  (reset_fields_coupled_preserved db0 (by decide)).2.1 "alice@example.com" entropy0 0
    _ (by decide)

/-- C4: for a stored row whose reset_token matches the supplied
well-formed token but whose reset_expires is strictly in the past,
completePasswordReset fails with the 400 "Token has expired" error (the
spec taxonomy's InvalidOrExpiredToken), lazily clears both reset fields
of that row as a side effect (2 storage statements: the SELECT and the
clearing UPDATE), and leaves every password hash unchanged. -/
theorem resetPassword_expired_token_rejected (db : Database)
    (token newPassword : String) (now : Int) (salt : Nat) (u : UserRow) (e : Int)
    (htok : token.length = 64) (hpw : 8 ≤ newPassword.length)
    (hfind : findByResetToken db.rows token = some u)
    (hexp : u.reset_expires = some e) (hpast : e < now) :
    completePasswordReset db token newPassword now salt =
      (.tokenExpired, { db with rows := clearResetFieldsById db.rows u.id }, 2) ∧
    resetStatus .tokenExpired = 400 ∧
    (clearResetFieldsById db.rows u.id).map (fun v => v.password_hash) =
      db.rows.map (fun v => v.password_hash) ∧
    (∀ v ∈ clearResetFieldsById db.rows u.id, v.id = u.id →
      v.reset_token = none ∧ v.reset_expires = none) := by
  refine ⟨?_, rfl, clearResetFieldsById_hash _ _, clearResetFieldsById_clears _ _⟩
  have h8 : ¬ newPassword.length < 8 := Nat.not_lt.mpr hpw
  have hsel : resetSelectPhase db.rows token newPassword = .found u.id u.reset_expires := by
    simp [resetSelectPhase, htok, h8, hfind]
  have hex : tokenRecordExpired (some e) now = true := by
    simp [tokenRecordExpired, hpast]
  simp [completePasswordReset, hsel, resetUpdatePhase, hexp, hex]

/-- C4 witness: on a database where alice's token expired at time 100,
a reset attempt at time 1000 with the matching token fails, clearing
her reset fields and keeping her password hash. -/
theorem resetPassword_expired_token_rejected_witness :
    completePasswordReset dbX tok64 "newpassword1" 1000 11 =
      (.tokenExpired, { dbX with rows := clearResetFieldsById dbX.rows aliceX.id }, 2) :=
  (resetPassword_expired_token_rejected dbX tok64 "newpassword1" 1000 11 aliceX 100
    rfl (by decide) rfl rfl (by decide)).1

/-- C10: for a stored row whose reset_token matches the supplied
well-formed token but whose reset_expires is NULL, completePasswordReset
treats the token as expired: it fails with the 400 "Token has expired"
error, clears both reset fields of that row, and leaves every password
hash unchanged — a token persisted without an expiry can never change a
password. -/
theorem resetPassword_null_expiry_treated_expired (db : Database)
    (token newPassword : String) (now : Int) (salt : Nat) (u : UserRow)
    (htok : token.length = 64) (hpw : 8 ≤ newPassword.length)
    (hfind : findByResetToken db.rows token = some u)
    (hexp : u.reset_expires = none) :
    completePasswordReset db token newPassword now salt =
      (.tokenExpired, { db with rows := clearResetFieldsById db.rows u.id }, 2) ∧
    resetStatus .tokenExpired = 400 ∧
    (clearResetFieldsById db.rows u.id).map (fun v => v.password_hash) =
      db.rows.map (fun v => v.password_hash) ∧
    (∀ v ∈ clearResetFieldsById db.rows u.id, v.id = u.id →
      v.reset_token = none ∧ v.reset_expires = none) := by
  refine ⟨?_, rfl, clearResetFieldsById_hash _ _, clearResetFieldsById_clears _ _⟩
  have h8 : ¬ newPassword.length < 8 := Nat.not_lt.mpr hpw
  have hsel : resetSelectPhase db.rows token newPassword = .found u.id u.reset_expires := by
    simp [resetSelectPhase, htok, h8, hfind]
  have hex : tokenRecordExpired none now = true := rfl
  simp [completePasswordReset, hsel, resetUpdatePhase, hexp, hex]

/-- C10 witness: on a database where alice's row carries the token with
a NULL expiry, the matching reset attempt fails and clears her reset
fields. -/
theorem resetPassword_null_expiry_treated_expired_witness :
    completePasswordReset dbN tok64 "newpassword1" 1000 11 =
      (.tokenExpired, { dbN with rows := clearResetFieldsById dbN.rows aliceN.id }, 2) :=
  (resetPassword_null_expiry_treated_expired dbN tok64 "newpassword1" 1000 11 aliceN
    rfl (by decide) rfl rfl).1

/-- Hex encoding doubles the byte count. -/
theorem bytesToHex_length (bs : List Nat) : (bytesToHex bs).length = 2 * bs.length := by
  induction bs with
  | nil => rfl
  | cons b t ih =>
    simp only [bytesToHex, byteToHex, List.map_cons, List.flatten_cons, String.length] at ih ⊢
    simp only [List.length_append, List.length_cons, List.length_nil] at ih ⊢
    omega

/-- A hex digit of a value below 16 lies in the hex alphabet. -/
theorem hexDigit_mem (n : Nat) (h : n < 16) :
    hexDigit n ∈ ("0123456789abcdef" : String).data := by
  interval_cases n <;> decide

/-- Every character of a hex encoding lies in the hex alphabet. -/
theorem bytesToHex_mem (bs : List Nat) :
    ∀ c ∈ (bytesToHex bs).data, c ∈ ("0123456789abcdef" : String).data := by
  induction bs with
  | nil => intro c hc; cases hc
  | cons b t ih =>
    intro c hc
    simp only [bytesToHex, List.map_cons, List.flatten_cons, List.mem_append] at hc
    rcases hc with hc | hc
    · simp only [byteToHex, List.mem_cons, List.not_mem_nil, or_false] at hc
      rcases hc with rfl | rfl
      · exact hexDigit_mem _ (Nat.mod_lt _ (by norm_num))
      · exact hexDigit_mem _ (Nat.mod_lt _ (by norm_num))
    · exact ih c hc

/-- Every row matched by email after the two issuance UPDATEs carries
the token and the one-hour expiry. -/
theorem issuance_sets_fields (rows : List UserRow) (e tok : String) (now : Int) :
    ∀ u ∈ setResetExpiresStep (setResetTokenStep rows e tok) e now,
      u.email = e → u.reset_token = some tok ∧ u.reset_expires = some (now + 3600) := by
  intro u hu hmail
  simp only [setResetExpiresStep, setResetTokenStep, List.map_map, List.mem_map,
    Function.comp] at hu
  obtain ⟨v, hv, rfl⟩ := hu
  by_cases hve : (v.email == e)
  · simp [hve]
  · simp only [hve, Bool.false_eq_true, ite_false] at hmail ⊢
    exact absurd hmail (by simpa using hve)

/-- C6: forgotPassword on an unregistered email fails 400 "Email is not
registered." without touching the table; on a registered email it
produces the hex encoding of the 32 random bytes drawn from the
CSPRNG (crypto.randomBytes, modelled as the entropy input) — 64
characters when the draw is 32 bytes, all in the hex alphabet —
persists it on the matched rows together with an expiry of issuance
time plus exactly one hour, and returns the token in the 200 response
body alongside the message. -/
theorem forgotPassword_issuance (db : Database) (e : String) (entropy : List Nat)
    (now : Int) :
    (doesAccountExist db e = false →
      createPasswordReset db e entropy now =
        ({ status := 400, message := "Email is not registered.", resetToken := none }, db)) ∧
    (doesAccountExist db e = true →
      createPasswordReset db e entropy now =
        ({ status := 200, message := "Password reset token created.",
           resetToken := some (bytesToHex entropy) },
         ⟨setResetExpiresStep
            (setResetTokenStep db.rows e (bytesToHex entropy)) e now, db.nextId⟩) ∧
      (entropy.length = 32 → (bytesToHex entropy).length = 64) ∧
      (∀ c ∈ (bytesToHex entropy).data, c ∈ ("0123456789abcdef" : String).data) ∧
      (∀ u ∈ setResetExpiresStep (setResetTokenStep db.rows e (bytesToHex entropy)) e now,
        u.email = e → u.reset_token = some (bytesToHex entropy) ∧
          u.reset_expires = some (now + 3600))) := by
  constructor
  · intro h
    simp [createPasswordReset, h]
  · intro h
    refine ⟨by simp [createPasswordReset, h], ?_, bytesToHex_mem entropy,
      issuance_sets_fields db.rows e (bytesToHex entropy) now⟩
    intro h32
    rw [bytesToHex_length, h32]

/-- C6 witness: on the empty database the request fails 400; on db0 the
issued token for 32 bytes of entropy has 64 characters. -/
theorem forgotPassword_issuance_witness :
    createPasswordReset dbEmpty "alice@example.com" entropy0 0 =
      ({ status := 400, message := "Email is not registered.", resetToken := none },
       dbEmpty) ∧
    (bytesToHex entropy0).length = 64 :=
  ⟨(forgotPassword_issuance dbEmpty "alice@example.com" entropy0 0).1 rfl,
   ((forgotPassword_issuance db0 "alice@example.com" entropy0 0).2 rfl).2.1 rfl⟩

/-- Looking up by email commutes with any row transformation that
preserves the email column. -/
theorem findByEmail_map (rows : List UserRow) (e : String) (f : UserRow → UserRow)
    (hf : ∀ u, (f u).email = u.email) :
    findByEmail (rows.map f) e = (findByEmail rows e).map f := by
  induction rows with
  | nil => rfl
  | cons v t ih =>
    simp only [findByEmail, List.map_cons, List.find?_cons] at ih ⊢
    rw [hf v]
    cases hv : (v.email == e)
    · simp only [hv]
      exact ih
    · simp [hv]

/-- The validation half only ever rejects with one of its two
validation errors. -/
theorem resetSelectPhase_rejected (rows : List UserRow) (tok np : String)
    (o : ResetOutcome) (h : resetSelectPhase rows tok np = .rejected o) :
    o = .invalidTokenFormat ∨ o = .passwordTooShort := by
  unfold resetSelectPhase at h
  by_cases h1 : tok.length ≠ 64
  · simp [h1] at h
    exact Or.inl h.symm
  · by_cases h2 : np.length < 8
    · simp [h1, h2] at h
      exact Or.inr h.symm
    · simp only [h1, h2] at h
      cases hfind : findByResetToken rows tok <;> simp [h1, h2, hfind] at h

/-- When the second half reports resetOk, the token record was not
expired and the resulting table is the one written by the final
UPDATE. -/
theorem resetUpdatePhase_resetOk (rows : List UserRow) (uid : Nat) (exp : Option Int)
    (np : String) (now : Int) (salt : Nat)
    (h : (resetUpdatePhase rows uid exp np now salt).1 = .resetOk) :
    tokenRecordExpired exp now = false ∧
    (resetUpdatePhase rows uid exp np now salt).2.1 =
      (updatePasswordById rows uid (bcrypt.hash np 12 salt)).1 := by
  by_cases hc : tokenRecordExpired exp now
  · rw [resetUpdatePhase, if_pos hc] at h
    simp at h
  · refine ⟨by simpa using hc, ?_⟩
    rw [resetUpdatePhase_rows, if_neg hc]

/-- C9: the Password Hasher round-trips — verify(p, hash(p)) is true
and verify(p2, hash(p)) is false whenever p2 differs from p — and
consequently, after a successful completePasswordReset replaces the
stored hash of the matched user (first match both by token and by
email), LoginUser with the new password succeeds and binds the session
to that user, while LoginUser with any other (old) password fails with
401 "Incorrect password.". -/
theorem bcrypt_roundtrip_and_reset_then_login :
    (∀ (p : String) (cost salt : Nat), bcrypt.compare p (bcrypt.hash p cost salt) = true) ∧
    (∀ (p p2 : String) (cost salt : Nat), p2 ≠ p →
      bcrypt.compare p2 (bcrypt.hash p cost salt) = false) ∧
    (∀ (db : Database) (u : UserRow) (tok newPass oldPass : String) (now : Int)
        (salt2 : Nat) (s : SessionObj),
      findByResetToken db.rows tok = some u →
      findByEmail db.rows u.email = some u →
      (completePasswordReset db tok newPass now salt2).1 = .resetOk →
      LoginUser (completePasswordReset db tok newPass now salt2).2.1 u.email newPass s =
        (.loginOk, { userId := some u.id }) ∧
      (oldPass ≠ newPass →
        (LoginUser (completePasswordReset db tok newPass now salt2).2.1
            u.email oldPass s).1 = .incorrectPassword)) := by
  refine ⟨?_, ?_, ?_⟩
  · intro p cost salt
    simp [bcrypt.compare, bcrypt.hash]
  · intro p p2 cost salt hne
    simp only [bcrypt.compare, bcrypt.hash]
    exact beq_eq_false_iff_ne.mpr fun hp => hne hp.symm
  · intro db u tok newPass oldPass now salt2 s hfind hmail hok
    cases hsel : resetSelectPhase db.rows tok newPass with
    | rejected o =>
      simp only [completePasswordReset, hsel] at hok
      rcases resetSelectPhase_rejected db.rows tok newPass o hsel with rfl | rfl <;>
        simp at hok
    | notFound =>
      simp only [completePasswordReset, hsel] at hok
      simp at hok
    | found uid exp =>
      have hids : uid = u.id ∧ exp = u.reset_expires := by
        unfold resetSelectPhase at hsel
        by_cases h1 : tok.length ≠ 64
        · simp [h1] at hsel
        · by_cases h2 : newPass.length < 8
          · simp [h1, h2] at hsel
          · simp only [h1, ite_false, h2, ite_true, hfind] at hsel
            obtain ⟨ha, hb⟩ := ResetSelectResult.found.inj hsel
            exact ⟨ha.symm, hb.symm⟩
      obtain ⟨rfl, rfl⟩ := hids
      rcases hr : resetUpdatePhase db.rows u.id u.reset_expires newPass now salt2
        with ⟨o, rows2, q⟩
      simp only [completePasswordReset, hsel, hr] at hok ⊢
      subst hok
      have hup := resetUpdatePhase_resetOk db.rows u.id u.reset_expires newPass now salt2
        (by rw [hr])
      have hrows2 : rows2 = (updatePasswordById db.rows u.id
          (bcrypt.hash newPass 12 salt2)).1 := by
        have h2 := hup.2
        rw [hr] at h2
        exact h2
      have hf : ∀ v : UserRow,
          ((fun v : UserRow => if (v.id == u.id) then
              finalUpdateRow v (bcrypt.hash newPass 12 salt2) else v) v).email = v.email := by
        intro v
        by_cases h : (v.id == u.id) <;> simp [h, finalUpdateRow]
      have hfe : findByEmail rows2 u.email =
          some (finalUpdateRow u (bcrypt.hash newPass 12 salt2)) := by
        rw [hrows2]
        show findByEmail (db.rows.map _) u.email = _
        rw [findByEmail_map db.rows u.email _ hf, hmail]
        simp [finalUpdateRow]
      constructor
      · simp [LoginUser, hfe, finalUpdateRow, bcrypt.compare, bcrypt.hash]
      · intro hne
        have hcmp : bcrypt.compare oldPass (bcrypt.hash newPass 12 salt2) = false := by
          simp only [bcrypt.compare, bcrypt.hash]
          exact beq_eq_false_iff_ne.mpr fun hp => hne hp.symm
        simp [LoginUser, hfe, finalUpdateRow, hcmp]

/-- C9 witness: after alice's pending reset is completed with
"NewPass123", login with "NewPass123" succeeds and binds the session to
her id, while login with the old "Secret123" fails with
"Incorrect password.". -/
theorem bcrypt_roundtrip_and_reset_then_login_witness :
    LoginUser (completePasswordReset dbP tok64 "NewPass123" 1000 11).2.1
        "alice@example.com" "NewPass123" { userId := none } =
      (.loginOk, { userId := some 1 }) ∧
    (LoginUser (completePasswordReset dbP tok64 "NewPass123" 1000 11).2.1
        "alice@example.com" "Secret123" { userId := none }).1 = .incorrectPassword := by
  have h := bcrypt_roundtrip_and_reset_then_login.2.2 dbP aliceP tok64 "NewPass123"
    "Secret123" 1000 11 { userId := none } rfl rfl rfl
  exact ⟨h.1, h.2 (by decide)⟩

end ExpressApp
